import Mathlib

/-!
Shallow embedding of `Imobiliário/neokoortimativa/data_model.py`.

Conventions of the embedding:
* Python `float` values are modelled as `ℚ` (the module performs only
  field arithmetic, absolute values and natural powers on them).
* A Python call that can raise is modelled as `Except PyError α`; a body
  with no raising path returns `Except.ok` on every input.
* Evaluating a name with no binding in any enclosing scope is a
  `NameError`; looking up an attribute an object does not have is an
  `AttributeError`.  Both are modelled explicitly where the source hits
  them.
* The metric order `p` (a Python non-negative `int` wherever the claims
  quantify it) is modelled as `ℕ`.
-/

namespace DataModel

/-- Errors surfaced by the embedded functions.  `nameError` and
`attributeError` model the Python runtime errors of the same names;
`validationError` models a pydantic `ValidationError`; the last three
constructors are the error taxonomy named by the specification
(`ProjectionError`, `InvalidArgument`, `InvalidInterval`), included so
that statements about them can be written — the source never produces
them. -/
inductive PyError where
  | nameError (missing : String)
  | attributeError (attr : String)
  | validationError
  | projectionError
  | invalidArgument
  | invalidInterval
  deriving DecidableEq, Repr

/-- `Interval = Tuple[float, float]` (data_model.py:24): a bare pair of
floats, a type alias with no constraint attached. -/
def Interval : Type := ℚ × ℚ

/-- Pydantic validation of a raw JSON value against the annotation
`Tuple[float, float]` (the type of every interval-valued field of
`UnitSpec`, data_model.py:123-132).  The raw value is modelled as a list
of elements, each `some q` when numeric and `none` when non-numeric.
Pydantic checks only the shape — exactly two items, each numeric — and
returns the pair unchanged; the alias carries no `low <= high` check and
no ordering constraint of any kind. -/
def validate_Interval : List (Option ℚ) → Except PyError (ℚ × ℚ)
  | [some a, some b] => Except.ok (a, b)
  | _ => Except.error PyError.validationError

/-- `_to_planar_transform(lat, lon)` (data_model.py:27-34).  The body is
`return pyproj.transform(wgs84, utm23, self.lat, self.lon)`.  The name
`self` has no binding in this module-level function (it is not a
parameter, not a local, not a module global), so evaluating the argument
`self.lat` raises `NameError` before any projection is attempted, on
every input; the parameters `lat` and `lon` are never read. -/
def _to_planar_transform (lat lon : ℚ) : Except PyError (ℚ × ℚ) :=
  Except.error (PyError.nameError "self")

/-- The record built by `LocationSpec` (data_model.py:36-61): the raw
`location` pair and the four numeric attributes its initializer assigns. -/
structure LocationSpec where
  location : ℚ × ℚ
  lat : ℚ
  lon : ℚ
  utm_north : ℚ
  utm_east : ℚ
  deriving DecidableEq, Repr

/-- Attribute lookup `t.coordinates` on a Python tuple `t`
(data_model.py:45): `tuple` objects have no attribute named
`coordinates` (they expose only `count` and `index`), so the lookup
raises `AttributeError` for every tuple. -/
def tuple_coordinates (t : ℚ × ℚ) : Except PyError (ℚ × ℚ) :=
  Except.error (PyError.attributeError "coordinates")

/-- `LocationSpec.__init__(self, location)` (data_model.py:43-47) applied
to a raw 2-tuple.  Line 44 stores the tuple; line 45 evaluates
`self.location.coordinates[0]`, an attribute lookup on that tuple, which
raises `AttributeError` (under pydantic `BaseModel` semantics the
assignment on line 44 is itself already rejected, since `LocationSpec`
declares no field `location`; either way no instance is produced).  Were
both to succeed, line 47 would call `_to_planar_transform`, which raises
`NameError` on every input. -/
def LocationSpec.init (location : ℚ × ℚ) : Except PyError LocationSpec := do
  let coords ← tuple_coordinates location
  let lat := coords.1
  let lon := coords.2
  let ne ← _to_planar_transform lat lon
  Except.ok { location := location, lat := lat, lon := lon,
              utm_north := ne.1, utm_east := ne.2 }

/-- `LocationSpec.utm_distance(self, utm_north, utm_east, p)`
(data_model.py:50-54): `dy = |utm_north - self.utm_north| ** p`,
`dx = |utm_east - self.utm_east| ** p`, returns `dx + dy`.  The body has
no raising path and performs no check on `p`. -/
def LocationSpec.utm_distance (self : LocationSpec)
    (utm_north utm_east : ℚ) (p : ℕ) : Except PyError ℚ :=
  let dy := |utm_north - self.utm_north| ^ p
  let dx := |utm_east - self.utm_east| ^ p
  Except.ok (dx + dy)

/-- `LocationSpec.lat_lon_distance(self, lat, lon, p)`
(data_model.py:55-58): transforms the given pair via
`_to_planar_transform`, then delegates to `utm_distance`.  The transform
raises `NameError` first, so the delegation is never reached. -/
def LocationSpec.lat_lon_distance (self : LocationSpec)
    (lat lon : ℚ) (p : ℕ) : Except PyError ℚ := do
  let ne ← _to_planar_transform lat lon
  self.utm_distance ne.1 ne.2 p

/-- `LocationSpec.loc_distance(self, other, p)` (data_model.py:59-61).
The body is `return self.utm_distance(self, other.utm_north, utm_east, p)`.
Python evaluates the arguments left to right: `self` and
`other.utm_north` resolve, but `utm_east` is bound neither in the method
scope (whose locals are `self`, `other`, `p`) nor at module level, so its
evaluation raises `NameError` before the call is made.  (Even with a
binding, the call would pass five positional arguments to a
four-parameter method.) -/
def LocationSpec.loc_distance (self other : LocationSpec) (p : ℕ) :
    Except PyError ℚ :=
  Except.error (PyError.nameError "utm_east")

/-- `TransactionSet` (data_model.py:64-67). -/
inductive TransactionSet where
  | rental
  | sale
  deriving DecidableEq, Repr

/-- The `.value` of each `TransactionSet` member. -/
def TransactionSet.value : TransactionSet → String
  | .rental => "aluguel"
  | .sale => "venda"

/-- `CitySet` (data_model.py:69-72). -/
inductive CitySet where
  | sp_capital
  | rj_capital
  deriving DecidableEq, Repr

/-- The `.value` of each `CitySet` member. -/
def CitySet.value : CitySet → String
  | .sp_capital => "sp"
  | .rj_capital => "rj"

/-- `ModelSpec` (data_model.py:74-81): a validated (city, transaction)
pair. -/
structure ModelSpec where
  city : CitySet
  transaction : TransactionSet
  deriving DecidableEq, Repr

/-- `ModelSpec.spec` (data_model.py:78-79). -/
def ModelSpec.spec (m : ModelSpec) : String × String :=
  (m.city.value, m.transaction.value)

/-- `ModelSpec.__str__` (data_model.py:80-81): the f-string
`f"{self.city.value}_{self.transaction.value}"`. -/
def ModelSpec.toString (m : ModelSpec) : String :=
  m.city.value ++ "_" ++ m.transaction.value

/-- `AVM_AbbrevSpecm` (data_model.py:84-98): the abbreviated input
schema, with its declared fields. -/
structure AVM_AbbrevSpecm where
  city : CitySet
  transacao : TransactionSet
  condominio : ℚ
  quartos : ℤ
  banheiros : ℤ
  vagas : ℤ
  area : ℚ
  suites : ℤ
  lat : ℚ
  lon : ℚ
  deriving DecidableEq, Repr

/-- `AVM_AbbrevSpecm.location` (data_model.py:96-98): the body is
`return (self.lat, self.on)`.  `self.lat` resolves to the declared
field, but `on` is not among the model's declared fields (the field is
spelled `lon`), and a pydantic `BaseModel` instance has no attribute
`on`, so `self.on` raises `AttributeError` on every instance and the
pair is never built. -/
def AVM_AbbrevSpecm.location (m : AVM_AbbrevSpecm) :
    Except PyError (ℚ × ℚ) :=
  let _lat_value := m.lat
  Except.error (PyError.attributeError "on")

/-- `UnitSpec` (data_model.py:123-132): the validated listing record;
each of the four interval-valued attribute fields has type `Interval`
and is validated by `validate_Interval`. -/
structure UnitSpec where
  model_context : ModelSpec
  other_costs : ℚ
  parkingSets : Interval
  suites : Interval
  bathrooms : Interval
  bedrooms : Interval
  location : LocationSpec

/-- A record whose cached planar point is the origin, used as a concrete
evaluation point. -/
def loc00 : LocationSpec :=
  { location := (0, 0), lat := 0, lon := 0, utm_north := 0, utm_east := 0 }

/-- A record whose cached planar point is (north 3, east 4), used as a
concrete evaluation point. -/
def loc34 : LocationSpec :=
  { location := (0, 0), lat := 0, lon := 0, utm_north := 3, utm_east := 4 }

/-- A concrete abbreviated-schema instance, used as a concrete
evaluation point. -/
def avm_ex : AVM_AbbrevSpecm :=
  { city := CitySet.sp_capital, transacao := TransactionSet.sale,
    condominio := 0, quartos := 1, banheiros := 1, vagas := 1,
    area := 50, suites := 0, lat := -23, lon := -46 }

/-- Claim C1: for every pair of planar points a, b and every positive
integer p, `utm_distance` returns the sum of the powered absolute
per-axis differences (no p-th root taken); in particular for a = (0,0),
b = (3,4), p = 2 it returns exactly 25. -/
theorem utm_distance_is_powered_sum :
    (∀ (a : LocationSpec) (n e : ℚ) (p : ℕ), 0 < p →
      a.utm_distance n e p =
        Except.ok (|a.utm_north - n| ^ p + |a.utm_east - e| ^ p)) ∧
    loc00.utm_distance 3 4 2 = Except.ok 25 := by
  constructor
  · intro a n e p _
    simp [LocationSpec.utm_distance, abs_sub_comm, add_comm]
  · simp [LocationSpec.utm_distance, loc00]
    norm_num

/-- Witness for C1 at a = loc00 (planar origin), b = (3, 4), p = 2. -/
theorem utm_distance_is_powered_sum_witness :
    0 < 2 ∧ loc00.utm_distance 3 4 2 =
      Except.ok (|loc00.utm_north - 3| ^ 2 + |loc00.utm_east - 4| ^ 2) :=
  ⟨by decide, utm_distance_is_powered_sum.left loc00 3 4 2 (by decide)⟩

/-- Claim C2 (code bug): `loc_distance` does not delegate to the other
record's cached planar coordinates — its body evaluates the unbound name
`utm_east` and raises `NameError`, while the claimed delegation
`self.utm_distance(other.utm_north, other.utm_east, p)` would return 25
for the same concrete records. -/
theorem loc_distance_raises_unbound_name :
    loc00.loc_distance loc34 2 = Except.error (PyError.nameError "utm_east") ∧
    loc00.utm_distance loc34.utm_north loc34.utm_east 2 = Except.ok 25 := by
  refine ⟨rfl, ?_⟩
  simp [LocationSpec.utm_distance, loc00, loc34]
  norm_num

/-- Claim C3 (code bug): constructing a `LocationSpec` from a raw
2-tuple never succeeds — the initializer looks up `.coordinates` on the
tuple, which has no such attribute, so construction raises instead of
setting `lat` and `lon` from the tuple's elements. -/
theorem init_from_raw_tuple_fails :
    LocationSpec.init (0, 0) =
      Except.error (PyError.attributeError "coordinates") ∧
    ∀ t : ℚ × ℚ, LocationSpec.init t =
      Except.error (PyError.attributeError "coordinates") :=
  ⟨rfl, fun _ => rfl⟩

/-- Counterexample to claim C4: at order p = 0 (so p ≤ 0) the distance
operation does not fail with `InvalidArgument` — it returns the value 2
(one per axis, since each powered difference is 1). -/
theorem utm_distance_order_zero_succeeds :
    loc00.utm_distance 3 4 0 = Except.ok 2 := by
  simp [LocationSpec.utm_distance, loc00]
  norm_num

/-- Claim C4 as amended: `utm_distance` performs no check on the order
`p` at all — for every non-negative integer `p` it returns the powered
sum without any failure mode (so it never raises `InvalidArgument`), and
at p = 0 it returns 2 for every pair of points. -/
theorem utm_distance_no_order_check :
    (∀ (a : LocationSpec) (n e : ℚ) (p : ℕ),
      a.utm_distance n e p =
        Except.ok (|e - a.utm_east| ^ p + |n - a.utm_north| ^ p)) ∧
    (∀ (a : LocationSpec) (n e : ℚ), a.utm_distance n e 0 = Except.ok 2) := by
  constructor
  · intro a n e p
    rfl
  · intro a n e
    simp [LocationSpec.utm_distance]
    norm_num

/-- Counterexample to claim C5: the interval (low 3, high 1), with
low > high, is accepted by interval validation (returned unchanged)
rather than rejected with `InvalidInterval`. -/
theorem interval_low_gt_high_accepted :
    validate_Interval [some 3, some 1] = Except.ok (3, 1) := rfl

/-- Claim C5 as amended: interval validation checks only the shape —
two bounds, both present and numeric, failing with a pydantic validation
error otherwise — and imposes no `low <= high` constraint: every numeric
pair, ordered or not, validates to itself, and no `InvalidInterval`
error exists in the code. -/
theorem validate_Interval_shape_only :
    (∀ a b : ℚ, validate_Interval [some a, some b] = Except.ok (a, b)) ∧
    (∀ x, validate_Interval [x, none] = Except.error PyError.validationError) ∧
    (∀ x, validate_Interval [none, x] = Except.error PyError.validationError) ∧
    validate_Interval [] = Except.error PyError.validationError := by
  refine ⟨fun a b => rfl, ?_, ?_, rfl⟩
  · intro x
    cases x <;> rfl
  · intro x
    cases x <;> rfl

/-- Claim C6: for all planar points a, b and every positive integer p,
the distance operation is symmetric. -/
theorem utm_distance_symmetric :
    ∀ (a b : LocationSpec) (p : ℕ), 0 < p →
      a.utm_distance b.utm_north b.utm_east p =
        b.utm_distance a.utm_north a.utm_east p := by
  intro a b p _
  simp [LocationSpec.utm_distance, abs_sub_comm]

/-- Witness for C6 at a = loc00, b = loc34, p = 2. -/
theorem utm_distance_symmetric_witness :
    0 < 2 ∧ loc00.utm_distance loc34.utm_north loc34.utm_east 2 =
      loc34.utm_distance loc00.utm_north loc00.utm_east 2 :=
  ⟨by decide, utm_distance_symmetric loc00 loc34 2 (by decide)⟩

/-- Claim C7: the model-key resolver produces the string
city-underscore-transaction from the enum values; in particular
(sp, sale) resolves to "sp_venda". -/
theorem model_key_format :
    (∀ (c : CitySet) (t : TransactionSet),
      ModelSpec.toString { city := c, transaction := t } =
        c.value ++ "_" ++ t.value) ∧
    ModelSpec.toString { city := CitySet.sp_capital,
                         transaction := TransactionSet.sale } = "sp_venda" :=
  ⟨fun _ _ => rfl, rfl⟩

/-- Claim C8 (code bug): `transform(lat = 91, lon = 0)` does fail, but
with `NameError` (the body evaluates the unbound name `self` before any
projection), not with `ProjectionError`. -/
theorem transform_out_of_domain_wrong_error :
    _to_planar_transform 91 0 = Except.error (PyError.nameError "self") ∧
    _to_planar_transform 91 0 ≠ Except.error PyError.projectionError :=
  ⟨rfl, fun h => PyError.noConfusion (Except.error.inj h)⟩

/-- Claim C9 (code bug): the abbreviated schema's `location` property
never returns the (lat, lon) pair — it reads the misspelled attribute
`on` instead of the declared field `lon`, raising `AttributeError` on
every instance, including the concrete instance `avm_ex`. -/
theorem abbrev_location_reads_misspelled_field :
    (∀ m : AVM_AbbrevSpecm,
      m.location = Except.error (PyError.attributeError "on")) ∧
    avm_ex.location = Except.error (PyError.attributeError "on") :=
  ⟨fun _ => rfl, rfl⟩

/-- Claim C10 (code bug): `_to_planar_transform` does not compute from
its `lat`, `lon` parameters — its body evaluates the unbound name
`self`, so it raises `NameError` on every input (shown concretely at
lat = 0, lon = 0), and `lat_lon_distance`, which calls it, fails on
every input as well. -/
theorem to_planar_transform_evaluates_unbound_self :
    (∀ lat lon : ℚ,
      _to_planar_transform lat lon = Except.error (PyError.nameError "self")) ∧
    (∀ (a : LocationSpec) (lat lon : ℚ) (p : ℕ),
      a.lat_lon_distance lat lon p = Except.error (PyError.nameError "self")) ∧
    _to_planar_transform 0 0 = Except.error (PyError.nameError "self") :=
  ⟨fun _ _ => rfl, fun _ _ _ _ => rfl, rfl⟩

end DataModel
